import Mathlib

/-
Verification of the realtime chat subsystem of the JoulaA backend
(`backend/app/core/websocket.py`, `backend/app/api/v1/endpoints/websocket.py`,
`backend/app/services/conversation_service.py`).

The Python code is shallowly embedded: the `ConnectionManager` dictionaries
become association lists with set-valued entries, the `WebSocketHandler`
methods become functions in a state-plus-exception monad `M` over a `World`
that records the registry state, the persisted database rows and the trace of
outbound transport writes.  Transport failures are an oracle indexed by the
global send-attempt counter, matching the per-`send_text` try/except blocks of
the source.  Timestamps and logging are omitted: no claim mentions them.
-/

namespace JoulaA

/-- User identities are the strings `str(user.id)` used as dictionary keys. -/
abbrev UserId := String

/-- Conversation identifiers are the raw strings used as dictionary keys. -/
abbrev ConvId := String

/-- An opaque handle for one live WebSocket transport object. -/
abbrev WS := Nat

/-! ### Python dict and set primitives

`ConnectionManager` stores `Dict[str, Set[...]]`; dictionaries are modelled as
association lists (insertion ordered, unique keys in every reachable state)
and sets as duplicate-free lists. -/

/-- `d[k]` lookup returning `none` when the key is absent. -/
def dictLookup [DecidableEq κ] (k : κ) : List (κ × α) → Option α
  | [] => none
  | (k', v) :: rest => if k' = k then some v else dictLookup k rest

/-- `d[k] = v`: replaces the first binding of `k` in place, or appends a new
binding at the end, exactly as CPython dict assignment behaves. -/
def dictSet [DecidableEq κ] (k : κ) (v : α) : List (κ × α) → List (κ × α)
  | [] => [(k, v)]
  | (k', v') :: rest => if k' = k then (k, v) :: rest else (k', v') :: dictSet k v rest

/-- `del d[k]`. -/
def dictDelete [DecidableEq κ] (k : κ) (d : List (κ × α)) : List (κ × α) :=
  d.filter (fun p => decide (p.1 ≠ k))

/-- Python `set.add`. -/
def setAdd [DecidableEq α] (x : α) (s : List α) : List α :=
  if x ∈ s then s else s ++ [x]

/-- Python `set.discard`. -/
def setDiscard [DecidableEq α] (x : α) (s : List α) : List α :=
  s.filter (fun y => decide (y ≠ x))

/-! ### Outbound wire events

The JSON payloads written by the handler, abstracted to their discriminating
fields (`websocket.py` builds them inline). -/

/-- One outbound JSON payload of the realtime channel. -/
inductive WireEvent where
  | new_message (id : Nat) (content role convId : String) (userId : Option String)
  | message_chunk (chunk convId : String)
  | message_complete (id : Nat) (content role convId : String) (agentId : Option String)
  | typingEv (userId : String) (isTyping : Bool) (convId : String)
  | joined_conversation (convId : String)
  | left_conversation (convId : String)
  | connected (userId : String)
  | errorEv (message : String)
deriving DecidableEq, Repr

/-- Python exceptions that the handler code can raise or catch. -/
inductive PyExn where
  | typeError (msg : String)
  | attributeError (msg : String)
  | valueError (msg : String)
  | validationError (msg : String)
  | notFound (msg : String)
  | permissionError (msg : String)
  | sendFailed
deriving DecidableEq, Repr

/-- Equality of `Except` results is decidable componentwise (used only to
evaluate the model on closed scenarios). -/
instance [DecidableEq ε] [DecidableEq α] : DecidableEq (Except ε α) := fun x y =>
  match x, y with
  | Except.ok a, Except.ok b =>
      if h : a = b then isTrue (by rw [h]) else isFalse (by simp [h])
  | Except.error a, Except.error b =>
      if h : a = b then isTrue (by rw [h]) else isFalse (by simp [h])
  | Except.ok _, Except.error _ => isFalse (by simp)
  | Except.error _, Except.ok _ => isFalse (by simp)

/-! ### Persistence layer -/

/-- A persisted `Message` row, as far as the realtime claims observe it
(`models/conversation.py`; timestamps omitted). -/
structure PMessage where
  id : Nat
  content : String
  role : String
  conversation_id : String
  user_id : Option String
deriving DecidableEq, Repr

/-- A persisted `Conversation` row restricted to the fields the service reads. -/
structure Conv where
  id : String
  user_id : String
  organization_id : Option String
  message_count : Nat
deriving DecidableEq, Repr

/-- The relational store as seen by `ConversationService`. `agents` lists the
agent ids that resolve successfully and `org_member` the active
`UserOrganization` rows `(user_id, organization_id)`. -/
structure DB where
  conversations : List Conv
  messages : List PMessage
  agents : List String
  org_member : List (String × String)
  nextId : Nat
deriving DecidableEq, Repr

/-! ### ConnectionManager state (`websocket.py` lines 19–117) -/

/-- The two module-level dictionaries of `ConnectionManager`. -/
structure ConnectionManager where
  active_connections : List (UserId × List WS)
  conversation_participants : List (ConvId × List UserId)
deriving DecidableEq, Repr

/-- `ConnectionManager.connect` (lines 28–41): ensure the user's set exists,
then add the websocket (the transport `accept` has no registry effect). -/
def ConnectionManager.connect (m : ConnectionManager) (ws : WS) (uid : UserId) :
    ConnectionManager :=
  let cur := (dictLookup uid m.active_connections).getD []
  { m with active_connections := dictSet uid (setAdd ws cur) m.active_connections }

/-- `ConnectionManager.disconnect` (lines 43–56): discard the websocket and
drop the user's entry when its set becomes empty. -/
def ConnectionManager.disconnect (m : ConnectionManager) (ws : WS) (uid : UserId) :
    ConnectionManager :=
  match dictLookup uid m.active_connections with
  | none => m
  | some s =>
    let s' := setDiscard ws s
    if s' = [] then
      { m with active_connections := dictDelete uid m.active_connections }
    else
      { m with active_connections := dictSet uid s' m.active_connections }

/-- `ConnectionManager.join_conversation` (lines 78–89). -/
def ConnectionManager.join_conversation (m : ConnectionManager) (uid : UserId)
    (cid : ConvId) : ConnectionManager :=
  let cur := (dictLookup cid m.conversation_participants).getD []
  { m with conversation_participants := dictSet cid (setAdd uid cur) m.conversation_participants }

/-- `ConnectionManager.leave_conversation` (lines 91–104). -/
def ConnectionManager.leave_conversation (m : ConnectionManager) (uid : UserId)
    (cid : ConvId) : ConnectionManager :=
  match dictLookup cid m.conversation_participants with
  | none => m
  | some s =>
    let s' := setDiscard uid s
    if s' = [] then
      { m with conversation_participants := dictDelete cid m.conversation_participants }
    else
      { m with conversation_participants := dictSet cid s' m.conversation_participants }

/-- The user's connection set as the registry currently records it (empty list
when the user has no entry). -/
def lookupSet (uid : UserId) (m : ConnectionManager) : List WS :=
  (dictLookup uid m.active_connections).getD []

/-- The participant set currently recorded for a conversation. -/
def lookupParticipants (cid : ConvId) (m : ConnectionManager) : List UserId :=
  (dictLookup cid m.conversation_participants).getD []

/-- The spec's ConnectionSet invariant: no user entry holds an empty set. -/
def NoEmptyConnEntries (m : ConnectionManager) : Prop :=
  ∀ p ∈ m.active_connections, p.2 ≠ []

/-! ### The effectful world and the handler monad

Every observable effect of the Python code is a field of `World`: the two
registries, the database, and the transport traces.  `outbox` records the
payloads actually written to a socket, `attempts` records every
`websocket.send_text` call whether or not it raised, and `sendCalls` records
each invocation of `ConnectionManager.send_personal_message` (the spec's
`sendToUser`). -/

/-- The complete mutable state plus observation traces. -/
structure World where
  manager : ConnectionManager
  db : DB
  outbox : List (WS × WireEvent)
  attempts : List (WS × WireEvent)
  sendCalls : List UserId
deriving DecidableEq, Repr

/-- State-and-exception monad: Python control flow with exceptions that leave
already-performed side effects in place. -/
def M (α : Type) : Type := World → World × Except PyExn α

/-- Sequencing: on an exception the partial effects are kept and the
continuation is skipped. -/
def mBind (x : M α) (f : α → M β) : M β := fun w =>
  match x w with
  | (w', Except.ok a) => f a w'
  | (w', Except.error e) => (w', Except.error e)

/-- Return without effects. -/
def mPure (a : α) : M α := fun w => (w, Except.ok a)

/-- `raise e`. -/
def mRaise (e : PyExn) : M α := fun w => (w, Except.error e)

/-- `try: x except Exception: h` (all handlers in the source catch bare
`Exception`). -/
def mTry (x : M α) (h : PyExn → M α) : M α := fun w =>
  match x w with
  | (w', Except.error e) => h e w'
  | ok => ok

/-- Read the current world. -/
def mGet : M World := fun w => (w, Except.ok w)

/-- Replace the current world. -/
def mSet (w : World) : M Unit := fun _ => (w, Except.ok ())

/-- Update the current world. -/
def mModify (f : World → World) : M Unit := fun w => (f w, Except.ok ())

/-- Run a pure `Except` computation (pydantic validation, `UUID(...)`,
service-call results) inside `M`. -/
def mLift (x : Except PyExn α) : M α := fun w => (w, x)

/-! ### The environment of one handler session

Inputs that are fixed for the duration of one scenario: which send attempts
fail, the session's own socket and user, which strings parse as UUIDs, and
the behaviour of the Agent/LLM gateway stream. -/

/-- How one gateway stream terminates after yielding its chunks. -/
inductive StreamEnd where
  | complete
  | raiseMidStream
deriving DecidableEq, Repr

/-- Session-scenario oracle.  `failing ws n` says whether the `n`-th send
attempt of the whole run (counted by `World.attempts`) raises when writing to
socket `ws`; `stream` is the chunk sequence and terminal outcome produced by
`ai_service.stream_chat_with_agent`, which the spec treats as an external
black box. -/
structure Env where
  failing : WS → Nat → Bool
  selfWs : WS
  selfUser : UserId
  uuidValid : String → Bool
  stream : List String × StreamEnd

/-- `websocket.send_text(json.dumps(ev))`: record the attempt; deliver or
raise according to the failure oracle. -/
def send_text (env : Env) (ws : WS) (ev : WireEvent) : M Unit := fun w =>
  let n := w.attempts.length
  let w' := { w with attempts := w.attempts ++ [(ws, ev)] }
  if env.failing ws n then (w', Except.error PyExn.sendFailed)
  else ({ w' with outbox := w'.outbox ++ [(ws, ev)] }, Except.ok ())

/-! ### ConnectionManager delivery (`websocket.py` lines 58–117) -/

/-- The `for websocket in self.active_connections[user_id].copy():` loop of
`send_personal_message`: try each send, collecting the websockets whose send
raised (lines 63–72). -/
def sendLoop (env : Env) (ev : WireEvent) : List WS → M (List WS)
  | [] => mPure []
  | ws :: rest =>
      mBind (mTry (mBind (send_text env ws ev) (fun _ => mPure false)) (fun _ => mPure true))
        (fun bad => mBind (sendLoop env ev rest)
          (fun others => mPure (if bad then ws :: others else others)))

/-- `ConnectionManager.send_personal_message` (lines 58–76): if the user has an
entry, iterate a snapshot of their set, then discard every websocket whose
send failed.  The emptied set is left in the dictionary — only `disconnect`
removes empty entries. -/
def send_personal_message (env : Env) (ev : WireEvent) (uid : UserId) : M Unit :=
  mBind (mModify (fun w => { w with sendCalls := w.sendCalls ++ [uid] }))
    (fun _ => mBind mGet (fun w =>
      match dictLookup uid w.manager.active_connections with
      | none => mPure ()
      | some s =>
          mBind (sendLoop env ev s) (fun disconnected =>
            mModify (fun w' =>
              let cur := (dictLookup uid w'.manager.active_connections).getD []
              let s' := disconnected.foldl (fun acc ws => setDiscard ws acc) cur
              { w' with manager := { w'.manager with
                  active_connections := dictSet uid s' w'.manager.active_connections } }))))

/-- `if exclude_user and user_id == exclude_user: continue` — Python
truthiness: an empty-string `exclude_user` is falsy, so it never excludes. -/
def excludeMatches : Option UserId → UserId → Bool
  | none, _ => false
  | some e, u => decide (e ≠ "") && decide (u = e)

/-- The `for user_id in participants:` loop of `broadcast_to_conversation`
(lines 113–117). -/
def broadcastLoop (env : Env) (ev : WireEvent) (exclude : Option UserId) :
    List UserId → M Unit
  | [] => mPure ()
  | u :: rest =>
      mBind (if excludeMatches exclude u then mPure () else send_personal_message env ev u)
        (fun _ => broadcastLoop env ev exclude rest)

/-- `ConnectionManager.broadcast_to_conversation` (lines 106–117): return
silently when the conversation has no participant entry, else send to every
non-excluded participant. -/
def broadcast_to_conversation (env : Env) (ev : WireEvent) (cid : ConvId)
    (exclude : Option UserId) : M Unit :=
  mBind mGet (fun w =>
    match dictLookup cid w.manager.conversation_participants with
    | none => mPure ()
    | some participants => broadcastLoop env ev exclude participants)

/-! ### ConversationService (`services/conversation_service.py`) -/

/-- The payload of `schemas.conversation.MessageCreate` restricted to the
fields the websocket path sets. -/
structure MessageCreate where
  content : String
  role : String
  conversation_id : Option String
deriving DecidableEq, Repr

/-- `MessageCreate(...)` under the pydantic `MessageBase` validators:
`content` has `min_length=1, max_length=10000` (`schemas/conversation.py`
lines 32–33); the roles passed here are literals of `MessageRole`. -/
def mkMessageCreate (content role : String) (cid : Option String) :
    Except PyExn MessageCreate :=
  if content.length = 0 ∨ content.length > 10000 then
    Except.error (PyExn.validationError "content length out of range")
  else Except.ok { content := content, role := role, conversation_id := cid }

/-- `ChatRequest(message=..., ...)`: `message` has `min_length=1,
max_length=10000` (`schemas/conversation.py` line 146); the UUID fields are
parsed separately. -/
def mkChatRequest (message : String) : Except PyExn Unit :=
  if message.length = 0 ∨ message.length > 10000 then
    Except.error (PyExn.validationError "message length out of range")
  else Except.ok ()

/-- `uuid.UUID(s)`: raises `ValueError` on a string that is not a UUID;
which strings parse is an oracle of the scenario. -/
def parseUUID (env : Env) (s : String) : Except PyExn String :=
  if env.uuidValid s then Except.ok s
  else Except.error (PyExn.valueError "badly formed hexadecimal UUID string")

/-- `ConversationService._check_conversation_access` (lines 413–436): the
owner passes; otherwise an active organization membership is required. -/
def check_conversation_access (db : DB) (c : Conv) (uid : String) :
    Except PyExn Unit :=
  if c.user_id = uid then Except.ok ()
  else
    match c.organization_id with
    | some org =>
        if (uid, org) ∈ db.org_member then Except.ok ()
        else Except.error (PyExn.permissionError "Access denied to conversation")
    | none => Except.error (PyExn.permissionError "Access denied to conversation")

/-- `ConversationService.add_message` (lines 270–311).  Its Python signature
is `(self, message_data: MessageCreate, user_id: UUID)`: it takes no
`conversation_id` parameter.  Validates the payload's conversation id, loads
the conversation, checks access, then persists the row (with `user_id` only
for role `"user"`, line 297) and bumps the conversation counters. -/
def ConversationService.add_message (db : DB) (message_data : MessageCreate)
    (user_id : String) : Except PyExn (DB × PMessage) :=
  match message_data.conversation_id with
  | none => Except.error (PyExn.validationError "Conversation ID is required")
  | some cid =>
    match db.conversations.find? (fun c => decide (c.id = cid)) with
    | none => Except.error (PyExn.notFound "Conversation not found")
    | some conv =>
      match check_conversation_access db conv user_id with
      | Except.error e => Except.error e
      | Except.ok _ =>
        let msg : PMessage :=
          { id := db.nextId
            content := message_data.content
            role := message_data.role
            conversation_id := cid
            user_id := if message_data.role = "user" then some user_id else none }
        let convs' := db.conversations.map (fun c =>
          if c.id = cid then { c with message_count := c.message_count + 1 } else c)
        Except.ok ({ db with conversations := convs',
                             messages := db.messages ++ [msg],
                             nextId := db.nextId + 1 }, msg)

/-- The handler invokes `self.conversation_service.add_message(
conversation_id=UUID(...), message_data=..., user_id=...)` (`websocket.py`
lines 177–181 and 269–273), but `ConversationService.add_message` is declared
with parameters `(self, message_data, user_id)` only
(`conversation_service.py` lines 270–274), so every such call raises
`TypeError: add_message() got an unexpected keyword argument
'conversation_id'` before the method body runs. -/
def call_add_message_with_conversation_id_kwarg (_db : DB) (_cid : String)
    (_message_data : MessageCreate) (_user_id : String) :
    Except PyExn (DB × PMessage) :=
  Except.error (PyExn.typeError "add_message got an unexpected keyword argument")

/-- Modelled from the spec: the handler calls
`self.conversation_service.get_agent_for_conversation` (`websocket.py` line
216) but no method of that name is defined anywhere in the repository.  Spec
§4.3 step 1 says the agent configuration is resolved via the persistence
collaborator, modelled as a lookup of the agent id among the known agents,
falsy when absent (`if not agent`, line 221). -/
def get_agent_for_conversation (db : DB) (_cid : String) (agent_id : String) :
    Option String :=
  if agent_id ∈ db.agents then some agent_id else none

/-- Modelled from the spec: the handler calls
`self.conversation_service.get_conversation_messages` (`websocket.py` line
226) with `limit=20`, but no method of that name is defined anywhere in the
repository.  Spec §4.3 step 1 says a bounded window of the most recent
messages is resolved, modelled as the last `limit` messages of the
conversation. -/
def get_conversation_messages (db : DB) (cid : String) (limit : Nat) :
    List PMessage :=
  let ms := db.messages.filter (fun m => decide (m.conversation_id = cid))
  ms.drop (ms.length - limit)

/-! ### WebSocketHandler (`websocket.py` lines 124–365) -/

/-- One parsed inbound JSON envelope; each field models `data.get('...')`. -/
structure Envelope where
  type : Option String
  conversation_id : Option String
  message : Option String
  agent_id : Option String
  is_typing : Option Bool
deriving DecidableEq, Repr

/-- Python truthiness of an optional string: `None` and `""` are falsy. -/
def truthyStr : Option String → Bool
  | none => false
  | some s => decide (s ≠ "")

/-- The f-string rendering of an optional string: `None` or the bare text. -/
def pyStr : Option String → String
  | none => "None"
  | some s => s

/-- `WebSocketHandler._send_error` (lines 353–358): one `error` payload on the
session's own socket. -/
def send_error (env : Env) (msg : String) : M Unit :=
  send_text env env.selfWs (WireEvent.errorEv msg)

/-- The `async for` loop of `_generate_ai_response` (lines 241–259): for each
chunk, extend the accumulator and broadcast a `message_chunk` event to the
conversation; returns the accumulated response text. -/
def streamLoop (env : Env) (conversation_id : String) (acc : String) :
    List String → M String
  | [] => mPure acc
  | chunk :: rest =>
      let acc' := acc ++ chunk
      mBind (broadcast_to_conversation env
              (WireEvent.message_chunk chunk conversation_id) conversation_id none)
        (fun _ => streamLoop env conversation_id acc' rest)

/-- `WebSocketHandler._generate_ai_response` (lines 212–300): resolve the
agent (spec-modelled, absent from the repository) and the bounded history
(spec-modelled likewise), build the `ChatRequest`, stream the gateway
response broadcasting each chunk, then persist the assistant message —
through the same mismatched `add_message(conversation_id=...)` call — and
broadcast `message_complete`; any exception is caught and reported as one
`error` event (lines 292–300).  In the `message_complete` payload the source
reads `ai_message.agent_id`, a field `MessageResponse` does not declare; that
line is unreachable because the persist call raises first, and the payload is
modelled with `none` there. -/
def generate_ai_response (env : Env) (conversation_id agent_id user_message : String) :
    M Unit :=
  mTry
    (mBind (mLift (parseUUID env conversation_id)) (fun _ =>
     mBind (mLift (parseUUID env agent_id)) (fun _ =>
     mBind mGet (fun w =>
       match get_agent_for_conversation w.db conversation_id agent_id with
       | none => send_error env "Agent not found"
       | some _agent =>
         let _history := get_conversation_messages w.db conversation_id 20
         mBind (mLift (mkChatRequest user_message)) (fun _ =>
         mBind (streamLoop env conversation_id "" env.stream.1) (fun response_content =>
           match env.stream.2 with
           | StreamEnd.raiseMidStream => mRaise (PyExn.valueError "stream failed")
           | StreamEnd.complete =>
             mBind (mLift (mkMessageCreate response_content "assistant" (some conversation_id)))
               (fun ai_message_data =>
             mBind mGet (fun w' =>
             mBind (mLift (call_add_message_with_conversation_id_kwarg w'.db
                     conversation_id ai_message_data env.selfUser))
               (fun r =>
             mBind (mSet { w' with db := r.1 }) (fun _ =>
               broadcast_to_conversation env
                 (WireEvent.message_complete r.2.id r.2.content r.2.role
                   conversation_id none)
                 conversation_id none))))))))))
    (fun _ => send_error env "Failed to generate AI response")

/-- `WebSocketHandler._handle_send_message` (lines 159–210): reject a falsy
`conversation_id` or `message`; otherwise parse the UUID, build the
`MessageCreate`, call `add_message` with the mismatched `conversation_id`
keyword, broadcast `new_message`, and when `agent_id` is truthy generate the
AI response; any exception inside the try is caught and reported as one
`error` event (lines 203–210). -/
def handle_send_message (env : Env) (data : Envelope) : M Unit :=
  let conversation_id := data.conversation_id
  let message_content := data.message
  let agent_id := data.agent_id
  if !truthyStr conversation_id || !truthyStr message_content then
    send_error env "Missing conversation_id or message"
  else
    mTry
      (mBind (mLift (parseUUID env (pyStr conversation_id))) (fun cid =>
       mBind (mLift (mkMessageCreate (pyStr message_content) "user" (some cid)))
         (fun message_data =>
       mBind mGet (fun w =>
       mBind (mLift (call_add_message_with_conversation_id_kwarg w.db cid
               message_data env.selfUser)) (fun r =>
       mBind (mSet { w with db := r.1 }) (fun _ =>
       mBind (broadcast_to_conversation env
               (WireEvent.new_message r.2.id r.2.content r.2.role cid r.2.user_id)
               (pyStr conversation_id) none) (fun _ =>
         if truthyStr agent_id then
           generate_ai_response env (pyStr conversation_id) (pyStr agent_id)
             (pyStr message_content)
         else mPure ())))))))
      (fun _ => send_error env "Failed to send message")

/-- `WebSocketHandler._handle_join_conversation` (lines 302–315): register the
session user as a participant and confirm with a `joined_conversation`
payload (`_send_success` merges `{'type': 'success', **data}`, and the
spread's own `type` key wins). -/
def handle_join_conversation (env : Env) (data : Envelope) : M Unit :=
  if !truthyStr data.conversation_id then
    send_error env "Missing conversation_id"
  else
    let cid := pyStr data.conversation_id
    mBind (mModify (fun w =>
        { w with manager := w.manager.join_conversation env.selfUser cid }))
      (fun _ => send_text env env.selfWs (WireEvent.joined_conversation cid))

/-- `WebSocketHandler._handle_leave_conversation` (lines 317–330). -/
def handle_leave_conversation (env : Env) (data : Envelope) : M Unit :=
  if !truthyStr data.conversation_id then
    send_error env "Missing conversation_id"
  else
    let cid := pyStr data.conversation_id
    mBind (mModify (fun w =>
        { w with manager := w.manager.leave_conversation env.selfUser cid }))
      (fun _ => send_text env env.selfWs (WireEvent.left_conversation cid))

/-- `WebSocketHandler._handle_typing` (lines 332–351): `is_typing` defaults to
`False` when the field is absent; a falsy `conversation_id` is an error;
otherwise broadcast the typing status excluding the sender, with no
confirmation to the sender. -/
def handle_typing (env : Env) (data : Envelope) : M Unit :=
  let is_typing := data.is_typing.getD false
  if !truthyStr data.conversation_id then
    send_error env "Missing conversation_id"
  else
    let cid := pyStr data.conversation_id
    broadcast_to_conversation env
      (WireEvent.typingEv env.selfUser is_typing cid) cid (some env.selfUser)

/-- The dispatch chain inside the `try` of `WebSocketHandler.handle_message`
(lines 137–147): four recognized types, anything else — including a missing
`type` key, read as `None` — answers `error: Unknown message type: ...`. -/
def dispatch_message (env : Env) (data : Envelope) : M Unit :=
  match data.type with
  | some "send_message" => handle_send_message env data
  | some "join_conversation" => handle_join_conversation env data
  | some "leave_conversation" => handle_leave_conversation env data
  | some "typing" => handle_typing env data
  | t => send_error env ("Unknown message type: " ++ pyStr t)

/-- `WebSocketHandler.handle_message` (lines 133–157): the dispatch runs under
a catch-all that logs and answers one generic `error` event. -/
def handle_message (env : Env) (data : Envelope) : M Unit :=
  mTry (dispatch_message env data) (fun _ => send_error env "Internal server error")

/-! ### The endpoint read loop (`api/v1/endpoints/websocket.py` lines 59–91) -/

/-- One iteration's input: a parsed JSON envelope, a `json.JSONDecodeError`,
or a `WebSocketDisconnect` from the peer. -/
inductive Inbound where
  | text (data : Envelope)
  | badJson
  | disconnect
deriving DecidableEq, Repr

/-- The `while True` receive loop over a finite inbound trace: disconnect
breaks; a JSON decode error answers `Invalid JSON format`; an exception
escaping `handle_message` is caught by the loop's generic handler which sends
`Internal server error`.  An exception raised while sending either of those
error payloads propagates out of the loop (the session dies), which the
monad's short-circuit models. -/
def chat_loop (env : Env) : List Inbound → M Unit
  | [] => mPure ()
  | Inbound.disconnect :: _ => mPure ()
  | Inbound.badJson :: rest =>
      mBind (send_text env env.selfWs (WireEvent.errorEv "Invalid JSON format"))
        (fun _ => chat_loop env rest)
  | Inbound.text d :: rest =>
      mBind (mTry (handle_message env d)
              (fun _ => send_text env env.selfWs (WireEvent.errorEv "Internal server error")))
        (fun _ => chat_loop env rest)

/-! ### Proof-side observations

Pure characterizations of the traces the delivery loop produces, used to
state the theorems; they are related to the executable model by lemmas
below. -/

/-- The websockets of a snapshot whose send attempt fails, when the first
attempt carries global index `n`. -/
def failedOf (env : Env) : Nat → List WS → List WS
  | _, [] => []
  | n, ws :: rest =>
      if env.failing ws n then ws :: failedOf env (n + 1) rest
      else failedOf env (n + 1) rest

/-- The websockets of a snapshot whose send attempt succeeds. -/
def keptOf (env : Env) : Nat → List WS → List WS
  | _, [] => []
  | n, ws :: rest =>
      if env.failing ws n then keptOf env (n + 1) rest
      else ws :: keptOf env (n + 1) rest

/-- The successful deliveries of a snapshot iteration, in order. -/
def deliveredOf (env : Env) (ev : WireEvent) : Nat → List WS → List (WS × WireEvent)
  | _, [] => []
  | n, ws :: rest =>
      if env.failing ws n then deliveredOf env ev (n + 1) rest
      else (ws, ev) :: deliveredOf env ev (n + 1) rest

/-- Recognized values of the envelope's `type` field (`websocket.py`
lines 138–145). -/
def recognizedType (t : Option String) : Prop :=
  t = some "send_message" ∨ t = some "join_conversation" ∨
  t = some "leave_conversation" ∨ t = some "typing"

/-- Whether a payload is an `error` event. -/
def isErrorPayload : WireEvent → Bool
  | WireEvent.errorEv _ => true
  | _ => false

/-! ### Registry operation sequences (for the spec's for-all-sequences law) -/

/-- One Connection Registry operation of the spec: `register` is
`ConnectionManager.connect`, `unregister` is `ConnectionManager.disconnect`. -/
inductive RegOp where
  | register (uid : UserId) (ws : WS)
  | unregister (uid : UserId) (ws : WS)
deriving DecidableEq, Repr

/-- Apply one operation to the registry. -/
def applyRegOp (m : ConnectionManager) : RegOp → ConnectionManager
  | RegOp.register uid ws => m.connect ws uid
  | RegOp.unregister uid ws => m.disconnect ws uid

/-- Run a sequence of registry operations. -/
def runOps (m : ConnectionManager) : List RegOp → ConnectionManager
  | [] => m
  | op :: rest => runOps (applyRegOp m op) rest

/-- Reference semantics: the pairs `(user, connection)` registered and not yet
unregistered after a sequence of operations, starting from `s`. -/
def registeredAfter (s : List (UserId × WS)) : List RegOp → List (UserId × WS)
  | [] => s
  | RegOp.register uid ws :: rest => registeredAfter (setAdd (uid, ws) s) rest
  | RegOp.unregister uid ws :: rest => registeredAfter (setDiscard (uid, ws) s) rest

/-- The Connection Registry coincides with the reference pair set `sp`:
membership agrees for every user and connection, and no entry is empty. -/
def RegInv (m : ConnectionManager) (sp : List (UserId × WS)) : Prop :=
  (∀ uid ws, ws ∈ lookupSet uid m ↔ (uid, ws) ∈ sp) ∧ NoEmptyConnEntries m

/-! ### Concrete scenarios for witnesses and counterexamples -/

/-- An empty registry. -/
def emptyManager : ConnectionManager :=
  { active_connections := [], conversation_participants := [] }

/-- An empty database. -/
def emptyDB : DB :=
  { conversations := [], messages := [], agents := [], org_member := [], nextId := 0 }

/-- The world at session start with nothing registered. -/
def emptyWorld : World :=
  { manager := emptyManager, db := emptyDB, outbox := [], attempts := [], sendCalls := [] }

/-- A healthy scenario: no send ever fails, every string parses as a UUID,
the session is user `"u"` on socket `0`, and the gateway yields nothing. -/
def envNoFail : Env :=
  { failing := fun _ _ => false, selfWs := 0, selfUser := "u",
    uuidValid := fun _ => true, stream := ([], StreamEnd.complete) }

/-- Every send attempt fails. -/
def envAllFail : Env := { envNoFail with failing := fun _ _ => true }

/-- Only the first send attempt of the run fails. -/
def envFirstFails : Env := { envNoFail with failing := fun _ n => decide (n = 0) }

/-- The claim C2 gateway: chunks `"Hel"`, `"lo"`, then clean completion. -/
def envHello : Env := { envNoFail with stream := (["Hel", "lo"], StreamEnd.complete) }

/-- The claim C5 gateway: chunk `"Hel"`, then an exception mid-stream. -/
def envHelRaise : Env := { envNoFail with stream := (["Hel"], StreamEnd.raiseMidStream) }

/-- User `"u"` holds the single connection `1`. -/
def worldOneConn : World :=
  { emptyWorld with manager :=
      { active_connections := [("u", [1])], conversation_participants := [] } }

/-- The empty-string user `""` is a participant of `"c"` and holds
connection `5`. -/
def worldEmptyStringUser : World :=
  { emptyWorld with manager :=
      { active_connections := [("", [5])], conversation_participants := [("c", [""])] } }

/-- Conversation `"c"` has participants `"u"` (the session user, offline) and
`"v"` (connection `7`); agent `"a1"` exists. -/
def worldChat : World :=
  { emptyWorld with
    manager := { active_connections := [("v", [7])],
                 conversation_participants := [("c", ["u", "v"])] },
    db := { emptyDB with agents := ["a1"] } }

/-- A `send_message` envelope without `agent_id`. -/
def envelopeSend : Envelope :=
  { type := some "send_message", conversation_id := some "c", message := some "hi",
    agent_id := none, is_typing := none }

/-- A `send_message` envelope with `agent_id`. -/
def envelopeSendAgent : Envelope :=
  { envelopeSend with agent_id := some "a1" }

/-- A `join_conversation` envelope. -/
def envelopeJoin : Envelope :=
  { type := some "join_conversation", conversation_id := some "c", message := none,
    agent_id := none, is_typing := none }

/-- An envelope with no `type` field. -/
def envelopeNoType : Envelope :=
  { type := none, conversation_id := none, message := none,
    agent_id := none, is_typing := none }

/-- A `typing` envelope with no `is_typing` field. -/
def envelopeTyping : Envelope :=
  { type := some "typing", conversation_id := some "c", message := none,
    agent_id := none, is_typing := none }

/-! ## Lemmas about the dict and set primitives -/

theorem dictLookup_dictSet_self [DecidableEq κ] (k : κ) (v : α) (d : List (κ × α)) :
    dictLookup k (dictSet k v d) = some v := by
  induction d with
  | nil => simp [dictSet, dictLookup]
  | cons p rest ih =>
      obtain ⟨k', v'⟩ := p
      by_cases h : k' = k
      · simp [dictSet, h, dictLookup]
      · simp [dictSet, h, dictLookup, ih]

theorem dictLookup_dictSet_ne [DecidableEq κ] {k k' : κ} (h : k' ≠ k) (v : α)
    (d : List (κ × α)) : dictLookup k' (dictSet k v d) = dictLookup k' d := by
  induction d with
  | nil => simp [dictSet, dictLookup, Ne.symm h]
  | cons p rest ih =>
      obtain ⟨k₀, v₀⟩ := p
      by_cases hk : k₀ = k
      · subst hk
        simp [dictSet, dictLookup, Ne.symm h]
      · simp [dictSet, hk, dictLookup, ih]

theorem dictLookup_dictDelete_self [DecidableEq κ] (k : κ) (d : List (κ × α)) :
    dictLookup k (dictDelete k d) = none := by
  induction d with
  | nil => simp [dictDelete, dictLookup]
  | cons p rest ih =>
      obtain ⟨k₀, v₀⟩ := p
      by_cases hk : k₀ = k
      · simpa [dictDelete, hk] using ih
      · simpa [dictDelete, dictLookup, hk] using ih

theorem dictLookup_dictDelete_ne [DecidableEq κ] {k k' : κ} (h : k' ≠ k)
    (d : List (κ × α)) : dictLookup k' (dictDelete k d) = dictLookup k' d := by
  induction d with
  | nil => simp [dictDelete, dictLookup]
  | cons p rest ih =>
      obtain ⟨k₀, v₀⟩ := p
      by_cases hk : k₀ = k
      · subst hk
        simpa [dictDelete, dictLookup, Ne.symm h] using ih
      · by_cases hk' : k₀ = k'
        · simp [dictDelete, dictLookup, hk, hk', h]
        · simpa [dictDelete, dictLookup, hk, hk'] using ih

theorem mem_dictSet [DecidableEq κ] {p : κ × α} {k : κ} {v : α}
    {d : List (κ × α)} (h : p ∈ dictSet k v d) : p = (k, v) ∨ p ∈ d := by
  induction d with
  | nil => simpa [dictSet] using h
  | cons q rest ih =>
      obtain ⟨k₀, v₀⟩ := q
      by_cases hk : k₀ = k
      · rcases (by simpa [dictSet, hk] using h) with h' | h'
        · exact Or.inl h'
        · exact Or.inr (List.mem_cons_of_mem _ h')
      · rcases (by simpa [dictSet, hk] using h) with h' | h'
        · exact Or.inr (by simp [h'])
        · rcases ih h' with h'' | h''
          · exact Or.inl h''
          · exact Or.inr (List.mem_cons_of_mem _ h'')

theorem mem_dictDelete [DecidableEq κ] {p : κ × α} {k : κ} {d : List (κ × α)}
    (h : p ∈ dictDelete k d) : p ∈ d :=
  List.mem_of_mem_filter h

theorem dictLookup_mem [DecidableEq κ] {k : κ} {v : α} {d : List (κ × α)}
    (h : dictLookup k d = some v) : (k, v) ∈ d := by
  induction d with
  | nil => simp [dictLookup] at h
  | cons q rest ih =>
      obtain ⟨k₀, v₀⟩ := q
      by_cases hk : k₀ = k
      · subst hk
        simp [dictLookup] at h
        simp [h]
      · exact List.mem_cons_of_mem _ (ih (by simpa [dictLookup, hk] using h))

theorem mem_setAdd [DecidableEq α] {x y : α} {s : List α} :
    x ∈ setAdd y s ↔ x = y ∨ x ∈ s := by
  by_cases h : y ∈ s
  · simp only [setAdd, if_pos h]
    constructor
    · exact Or.inr
    · rintro (rfl | hx)
      · exact h
      · exact hx
  · simp [setAdd, if_neg h, or_comm]

theorem setAdd_ne_nil [DecidableEq α] {x : α} {s : List α} : setAdd x s ≠ [] := by
  by_cases h : x ∈ s
  · simp only [setAdd, if_pos h]
    rintro rfl
    exact List.not_mem_nil x h
  · simp [setAdd, if_neg h]

theorem mem_setDiscard [DecidableEq α] {x y : α} {s : List α} :
    x ∈ setDiscard y s ↔ x ∈ s ∧ x ≠ y := by
  simp [setDiscard]

/-! ## Evaluation of the delivery machinery -/

theorem send_text_ok {env : Env} {ws : WS} {ev : WireEvent} {w : World}
    (h : env.failing ws w.attempts.length = false) :
    send_text env ws ev w =
      ({ w with attempts := w.attempts ++ [(ws, ev)],
                outbox := w.outbox ++ [(ws, ev)] }, Except.ok ()) := by
  simp [send_text, h]

theorem send_text_fail {env : Env} {ws : WS} {ev : WireEvent} {w : World}
    (h : env.failing ws w.attempts.length = true) :
    send_text env ws ev w =
      ({ w with attempts := w.attempts ++ [(ws, ev)] }, Except.error PyExn.sendFailed) := by
  simp [send_text, h]

theorem sendLoop_eval (env : Env) (ev : WireEvent) :
    ∀ (s : List WS) (w : World),
      sendLoop env ev s w =
        ({ w with attempts := w.attempts ++ s.map (fun ws => (ws, ev)),
                  outbox := w.outbox ++ deliveredOf env ev w.attempts.length s },
         Except.ok (failedOf env w.attempts.length s)) := by
  intro s
  induction s with
  | nil => intro w; simp [sendLoop, mPure, deliveredOf, failedOf]
  | cons ws rest ih =>
      intro w
      by_cases h : env.failing ws w.attempts.length
      · simp [sendLoop, mBind, mTry, mPure, send_text, h, ih, deliveredOf, failedOf,
              List.append_assoc]
      · simp only [Bool.not_eq_true] at h
        simp [sendLoop, mBind, mTry, mPure, send_text, h, ih, deliveredOf, failedOf,
              List.append_assoc]

theorem send_personal_message_none {env : Env} {ev : WireEvent} {uid : UserId} {w : World}
    (h : dictLookup uid w.manager.active_connections = none) :
    send_personal_message env ev uid w =
      ({ w with sendCalls := w.sendCalls ++ [uid] }, Except.ok ()) := by
  simp [send_personal_message, mBind, mModify, mGet, mPure, h]

theorem send_personal_message_some {env : Env} {ev : WireEvent} {uid : UserId} {w : World}
    {s : List WS} (h : dictLookup uid w.manager.active_connections = some s) :
    send_personal_message env ev uid w =
      ({ w with
          manager := { w.manager with
            active_connections := dictSet uid
              ((failedOf env w.attempts.length s).foldl (fun acc ws => setDiscard ws acc) s)
              w.manager.active_connections },
          outbox := w.outbox ++ deliveredOf env ev w.attempts.length s,
          attempts := w.attempts ++ s.map (fun ws => (ws, ev)),
          sendCalls := w.sendCalls ++ [uid] }, Except.ok ()) := by
  simp [send_personal_message, mBind, mModify, mGet, mPure, h, sendLoop_eval]

theorem mem_failedOf {env : Env} :
    ∀ {n : Nat} {s : List WS} {ws : WS}, ws ∈ failedOf env n s → ws ∈ s := by
  intro n s
  induction s generalizing n with
  | nil => intro ws h; simp [failedOf] at h
  | cons x rest ih =>
      intro ws h
      by_cases hx : env.failing x n
      · rcases (by simpa [failedOf, hx] using h) with h' | h'
        · simp [h']
        · exact List.mem_cons_of_mem _ (ih h')
      · simp only [Bool.not_eq_true] at hx
        exact List.mem_cons_of_mem _ (ih (by simpa [failedOf, hx] using h))

theorem deliveredOf_mem {env : Env} {ev : WireEvent} :
    ∀ {n : Nat} {s : List WS} {p : WS × WireEvent},
      p ∈ deliveredOf env ev n s → p.2 = ev ∧ p.1 ∈ s := by
  intro n s
  induction s generalizing n with
  | nil => intro p h; simp [deliveredOf] at h
  | cons x rest ih =>
      intro p h
      by_cases hx : env.failing x n
      · rcases ih (by simpa [deliveredOf, hx] using h) with ⟨h1, h2⟩
        exact ⟨h1, List.mem_cons_of_mem _ h2⟩
      · simp only [Bool.not_eq_true] at hx
        rcases (by simpa [deliveredOf, hx] using h) with h' | h'
        · subst h'; exact ⟨rfl, by simp⟩
        · rcases ih h' with ⟨h1, h2⟩
          exact ⟨h1, List.mem_cons_of_mem _ h2⟩

theorem deliveredOf_eq_map_keptOf (env : Env) (ev : WireEvent) :
    ∀ (n : Nat) (s : List WS),
      deliveredOf env ev n s = (keptOf env n s).map (fun ws => (ws, ev)) := by
  intro n s
  induction s generalizing n with
  | nil => simp [deliveredOf, keptOf]
  | cons x rest ih =>
      by_cases hx : env.failing x n
      · simp [deliveredOf, keptOf, hx, ih]
      · simp only [Bool.not_eq_true] at hx
        simp [deliveredOf, keptOf, hx, ih]

theorem keptOf_sublist (env : Env) :
    ∀ (n : Nat) (s : List WS), (keptOf env n s).Sublist s := by
  intro n s
  induction s generalizing n with
  | nil => simp [keptOf]
  | cons x rest ih =>
      by_cases hx : env.failing x n
      · simpa [keptOf, hx] using List.Sublist.cons x (ih (n + 1))
      · simp only [Bool.not_eq_true] at hx
        simpa [keptOf, hx] using List.Sublist.cons₂ x (ih (n + 1))

theorem mem_keptOf_iff {env : Env} :
    ∀ {n : Nat} {s : List WS}, s.Nodup →
      ∀ {ws : WS}, ws ∈ keptOf env n s ↔ ws ∈ s ∧ ws ∉ failedOf env n s := by
  intro n s
  induction s generalizing n with
  | nil => intro _ ws; simp [keptOf, failedOf]
  | cons x rest ih =>
      intro hnd ws
      have hx_rest : x ∉ rest := (List.nodup_cons.mp hnd).1
      have hnd' : rest.Nodup := (List.nodup_cons.mp hnd).2
      by_cases hx : env.failing x n
      · constructor
        · intro h
          have h' := (ih hnd').mp (by simpa [keptOf, hx] using h)
          refine ⟨List.mem_cons_of_mem _ h'.1, ?_⟩
          simp only [failedOf, hx, if_true]
          intro hc
          rcases List.mem_cons.mp hc with hc | hc
          · exact hx_rest (hc ▸ h'.1)
          · exact h'.2 hc
        · rintro ⟨hmem, hnf⟩
          simp only [failedOf, hx, if_true] at hnf
          rcases List.mem_cons.mp hmem with rfl | hmem'
          · exact absurd (List.mem_cons_self _ _) hnf
          · simpa [keptOf, hx] using (ih hnd').mpr
              ⟨hmem', fun hc => hnf (List.mem_cons_of_mem _ hc)⟩
      · simp only [Bool.not_eq_true] at hx
        constructor
        · intro h
          rcases List.mem_cons.mp (by simpa [keptOf, hx] using h) with rfl | h'
          · refine ⟨List.mem_cons_self _ _, ?_⟩
            simp only [failedOf, hx, if_false]
            intro hc
            exact hx_rest (mem_failedOf hc)
          · have h'' := (ih hnd').mp h'
            refine ⟨List.mem_cons_of_mem _ h''.1, ?_⟩
            simp only [failedOf, hx, if_false]
            exact h''.2
        · rintro ⟨hmem, hnf⟩
          simp only [failedOf, hx, if_false] at hnf
          rcases List.mem_cons.mp hmem with rfl | hmem'
          · simp [keptOf, hx]
          · simpa [keptOf, hx] using Or.inr ((ih hnd').mpr ⟨hmem', hnf⟩)

theorem mem_foldl_setDiscard :
    ∀ (fail : List WS) (s : List WS) (x : WS),
      x ∈ fail.foldl (fun acc ws => setDiscard ws acc) s ↔ x ∈ s ∧ x ∉ fail := by
  intro fail
  induction fail with
  | nil => intro s x; simp
  | cons f fs ih =>
      intro s x
      rw [List.foldl_cons, ih]
      rw [mem_setDiscard]
      constructor
      · rintro ⟨⟨hs, hne⟩, hnf⟩
        exact ⟨hs, by simp [hne, hnf]⟩
      · rintro ⟨hs, hnf⟩
        simp only [List.mem_cons, not_or] at hnf
        exact ⟨⟨hs, hnf.1⟩, hnf.2⟩

theorem count_pair_map (ev : WireEvent) :
    ∀ (l : List WS) (ws : WS),
      (l.map (fun x => (x, ev))).count (ws, ev) = l.count ws := by
  intro l
  induction l with
  | nil => intro ws; simp
  | cons x rest ih =>
      intro ws
      by_cases h : x = ws
      · simp [List.count_cons, h, ih]
      · simp [List.count_cons, h, ih, Prod.ext_iff]

/-! ## Evaluation of conversation broadcasting -/

theorem broadcastLoop_spec (env : Env) (ev : WireEvent) (ex : Option UserId) :
    ∀ (ps : List UserId) (w : World),
      ∃ ac out att,
        broadcastLoop env ev ex ps w =
          ({ manager := { active_connections := ac,
                          conversation_participants := w.manager.conversation_participants },
             db := w.db,
             outbox := w.outbox ++ out,
             attempts := w.attempts ++ att,
             sendCalls := w.sendCalls ++ ps.filter (fun u => !excludeMatches ex u) },
           Except.ok ()) ∧
        ∀ p ∈ out, p.2 = ev := by
  intro ps
  induction ps with
  | nil =>
      intro w
      exact ⟨w.manager.active_connections, [], [], by simp [broadcastLoop, mPure], by simp⟩
  | cons u rest ih =>
      intro w
      by_cases hm : excludeMatches ex u = true
      · obtain ⟨ac, out, att, heq, hout⟩ := ih w
        refine ⟨ac, out, att, ?_, hout⟩
        simp [broadcastLoop, mBind, mPure, hm, heq]
      · simp only [Bool.not_eq_true] at hm
        cases hd : dictLookup u w.manager.active_connections with
        | none =>
            obtain ⟨ac, out, att, heq, hout⟩ :=
              ih { w with sendCalls := w.sendCalls ++ [u] }
            refine ⟨ac, out, att, ?_, hout⟩
            rw [broadcastLoop]
            simp only [hm, Bool.false_eq_true, if_false, mBind]
            rw [send_personal_message_none hd]
            simp only [heq]
            simp [List.append_assoc, List.filter_cons, hm]
        | some s =>
            obtain ⟨ac, out, att, heq, hout⟩ :=
              ih { w with
                    manager := { w.manager with
                      active_connections := dictSet u
                        ((failedOf env w.attempts.length s).foldl
                          (fun acc ws => setDiscard ws acc) s)
                        w.manager.active_connections },
                    outbox := w.outbox ++ deliveredOf env ev w.attempts.length s,
                    attempts := w.attempts ++ s.map (fun ws => (ws, ev)),
                    sendCalls := w.sendCalls ++ [u] }
            refine ⟨ac, deliveredOf env ev w.attempts.length s ++ out,
              s.map (fun ws => (ws, ev)) ++ att, ?_, ?_⟩
            · rw [broadcastLoop]
              simp only [hm, Bool.false_eq_true, if_false, mBind]
              rw [send_personal_message_some hd]
              simp only [heq]
              simp [List.append_assoc, List.filter_cons, hm]
            · intro p hp
              rcases List.mem_append.mp hp with hp | hp
              · exact (deliveredOf_mem hp).1
              · exact hout p hp

theorem broadcast_spec (env : Env) (ev : WireEvent) (cid : ConvId) (ex : Option UserId)
    (w : World) :
    ∃ ac out att,
      broadcast_to_conversation env ev cid ex w =
        ({ manager := { active_connections := ac,
                        conversation_participants := w.manager.conversation_participants },
           db := w.db,
           outbox := w.outbox ++ out,
           attempts := w.attempts ++ att,
           sendCalls := w.sendCalls ++
             (lookupParticipants cid w.manager).filter (fun u => !excludeMatches ex u) },
         Except.ok ()) ∧
      ∀ p ∈ out, p.2 = ev := by
  cases hd : dictLookup cid w.manager.conversation_participants with
  | none =>
      refine ⟨w.manager.active_connections, [], [], ?_, by simp⟩
      simp [broadcast_to_conversation, mBind, mGet, mPure, hd, lookupParticipants]
  | some ps =>
      obtain ⟨ac, out, att, heq, hout⟩ := broadcastLoop_spec env ev ex ps w
      refine ⟨ac, out, att, ?_, hout⟩
      rw [broadcast_to_conversation]
      simp only [mBind, mGet, hd]
      rw [heq]
      simp [lookupParticipants, hd]

theorem broadcast_ok (env : Env) (ev : WireEvent) (cid : ConvId) (ex : Option UserId)
    (w : World) : (broadcast_to_conversation env ev cid ex w).2 = Except.ok () := by
  obtain ⟨ac, out, att, heq, _⟩ := broadcast_spec env ev cid ex w
  simp [heq]

theorem broadcast_none_noop {env : Env} {ev : WireEvent} {cid : ConvId}
    {ex : Option UserId} {w : World}
    (hd : dictLookup cid w.manager.conversation_participants = none) :
    broadcast_to_conversation env ev cid ex w = (w, Except.ok ()) := by
  simp [broadcast_to_conversation, mBind, mGet, mPure, hd]

/-! ## Registry lemmas -/

theorem connect_noEmpty {m : ConnectionManager} {ws : WS} {uid : UserId}
    (h : NoEmptyConnEntries m) : NoEmptyConnEntries (m.connect ws uid) := by
  intro p hp
  rcases mem_dictSet (by simpa [ConnectionManager.connect] using hp) with h' | h'
  · subst h'
    exact setAdd_ne_nil
  · exact h p h'

theorem disconnect_noEmpty {m : ConnectionManager} {ws : WS} {uid : UserId}
    (h : NoEmptyConnEntries m) : NoEmptyConnEntries (m.disconnect ws uid) := by
  intro p hp
  rw [ConnectionManager.disconnect] at hp
  cases hd : dictLookup uid m.active_connections with
  | none => exact h p (by simpa [hd] using hp)
  | some s =>
      rw [hd] at hp
      by_cases hs : setDiscard ws s = []
      · exact h p (mem_dictDelete (by simpa [hs] using hp))
      · rcases mem_dictSet (by simpa [hs] using hp) with h' | h'
        · subst h'
          exact hs
        · exact h p h'

theorem lookupSet_connect_self (m : ConnectionManager) (ws : WS) (uid : UserId) :
    lookupSet uid (m.connect ws uid) = setAdd ws (lookupSet uid m) := by
  simp [lookupSet, ConnectionManager.connect, dictLookup_dictSet_self]

theorem lookupSet_connect_ne {uid uid' : UserId} (h : uid' ≠ uid)
    (m : ConnectionManager) (ws : WS) :
    lookupSet uid' (m.connect ws uid) = lookupSet uid' m := by
  simp [lookupSet, ConnectionManager.connect, dictLookup_dictSet_ne h]

theorem lookupSet_disconnect_self (m : ConnectionManager) (ws : WS) (uid : UserId) :
    lookupSet uid (m.disconnect ws uid) = setDiscard ws (lookupSet uid m) := by
  rw [ConnectionManager.disconnect]
  cases hd : dictLookup uid m.active_connections with
  | none => simp [lookupSet, hd, setDiscard]
  | some s =>
      by_cases hs : setDiscard ws s = []
      · simp [hs, lookupSet, hd, dictLookup_dictDelete_self]
      · simp [hs, lookupSet, hd, dictLookup_dictSet_self]

theorem lookupSet_disconnect_ne {uid uid' : UserId} (h : uid' ≠ uid)
    (m : ConnectionManager) (ws : WS) :
    lookupSet uid' (m.disconnect ws uid) = lookupSet uid' m := by
  rw [ConnectionManager.disconnect]
  cases hd : dictLookup uid m.active_connections with
  | none => rfl
  | some s =>
      by_cases hs : setDiscard ws s = []
      · simp [hs, lookupSet, dictLookup_dictDelete_ne h]
      · simp [hs, lookupSet, dictLookup_dictSet_ne h]

theorem disconnect_sole_entry_gone {m : ConnectionManager} {ws : WS} {uid : UserId}
    (h : lookupSet uid m = [ws]) :
    dictLookup uid (m.disconnect ws uid).active_connections = none := by
  have hd : dictLookup uid m.active_connections = some [ws] := by
    rw [lookupSet] at h
    cases hd : dictLookup uid m.active_connections with
    | none => rw [hd] at h; simp at h
    | some s =>
        rw [hd] at h
        simp only [Option.getD_some] at h
        rw [h]
  rw [ConnectionManager.disconnect, hd]
  have hs : setDiscard ws [ws] = [] := by simp [setDiscard]
  simp [hs, dictLookup_dictDelete_self]

theorem regInv_connect {m : ConnectionManager} {sp : List (UserId × WS)}
    (h : RegInv m sp) (ws : WS) (uid : UserId) :
    RegInv (m.connect ws uid) (setAdd (uid, ws) sp) := by
  refine ⟨?_, connect_noEmpty h.2⟩
  intro uid' ws'
  by_cases hu : uid' = uid
  · subst hu
    rw [lookupSet_connect_self, mem_setAdd, mem_setAdd, h.1, Prod.ext_iff]
    simp
  · rw [lookupSet_connect_ne hu, mem_setAdd, h.1, Prod.ext_iff]
    simp [hu]

theorem regInv_disconnect {m : ConnectionManager} {sp : List (UserId × WS)}
    (h : RegInv m sp) (ws : WS) (uid : UserId) :
    RegInv (m.disconnect ws uid) (setDiscard (uid, ws) sp) := by
  refine ⟨?_, disconnect_noEmpty h.2⟩
  intro uid' ws'
  by_cases hu : uid' = uid
  · subst hu
    rw [lookupSet_disconnect_self, mem_setDiscard, mem_setDiscard, h.1]
    simp [Prod.ext_iff]
  · rw [lookupSet_disconnect_ne hu, mem_setDiscard, h.1]
    simp [Prod.ext_iff, hu]

theorem regInv_empty : RegInv emptyManager [] := by
  constructor
  · intro uid ws
    simp [lookupSet, emptyManager, dictLookup]
  · intro p hp
    simp [emptyManager] at hp

theorem runOps_regInv :
    ∀ (ops : List RegOp) {m : ConnectionManager} {sp : List (UserId × WS)},
      RegInv m sp → RegInv (runOps m ops) (registeredAfter sp ops) := by
  intro ops
  induction ops with
  | nil => intro m sp h; simpa [runOps, registeredAfter] using h
  | cons op rest ih =>
      intro m sp h
      cases op with
      | register uid ws =>
          simpa [runOps, registeredAfter, applyRegOp] using ih (regInv_connect h ws uid)
      | unregister uid ws =>
          simpa [runOps, registeredAfter, applyRegOp] using ih (regInv_disconnect h ws uid)

theorem runOps_append (op : RegOp) :
    ∀ (ops : List RegOp) (m : ConnectionManager),
      runOps m (ops ++ [op]) = applyRegOp (runOps m ops) op := by
  intro ops
  induction ops with
  | nil => intro m; simp [runOps]
  | cons o rest ih => intro m; simp [runOps, ih]

/-! ## Evaluation of the streaming loop -/

theorem streamLoop_spec (env : Env) (cid : String) :
    ∀ (cs : List String) (acc : String) (w : World),
      ∃ ac out att calls r,
        streamLoop env cid acc cs w =
          ({ manager := { active_connections := ac,
                          conversation_participants := w.manager.conversation_participants },
             db := w.db,
             outbox := w.outbox ++ out,
             attempts := w.attempts ++ att,
             sendCalls := w.sendCalls ++ calls }, Except.ok r) ∧
        ∀ p ∈ out, ∃ c ∈ cs, p.2 = WireEvent.message_chunk c cid := by
  intro cs
  induction cs with
  | nil =>
      intro acc w
      exact ⟨w.manager.active_connections, [], [], [], acc,
        by simp [streamLoop, mPure], by simp⟩
  | cons c rest ih =>
      intro acc w
      obtain ⟨ac1, out1, att1, heq1, hout1⟩ :=
        broadcast_spec env (WireEvent.message_chunk c cid) cid none w
      obtain ⟨ac, out, att, calls, r, heq, hout⟩ := ih (acc ++ c)
        { manager := { active_connections := ac1,
                       conversation_participants := w.manager.conversation_participants },
          db := w.db,
          outbox := w.outbox ++ out1,
          attempts := w.attempts ++ att1,
          sendCalls := w.sendCalls ++
            (lookupParticipants cid w.manager).filter (fun u => !excludeMatches none u) }
      refine ⟨ac, out1 ++ out,
        att1 ++ att,
        (lookupParticipants cid w.manager).filter (fun u => !excludeMatches none u) ++ calls,
        r, ?_, ?_⟩
      · rw [streamLoop]
        simp only [mBind]
        rw [heq1]
        simp only [heq]
        simp [List.append_assoc]
      · intro p hp
        rcases List.mem_append.mp hp with hp | hp
        · exact ⟨c, by simp, hout1 p hp⟩
        · obtain ⟨c', hc', hpc⟩ := hout p hp
          exact ⟨c', by simp [hc'], hpc⟩

theorem mem_deliveredOf_of_kept {env : Env} {ev : WireEvent} :
    ∀ {n : Nat} {s : List WS} {ws : WS},
      ws ∈ s → ws ∉ failedOf env n s → (ws, ev) ∈ deliveredOf env ev n s := by
  intro n s
  induction s generalizing n with
  | nil => intro ws h; simp at h
  | cons x rest ih =>
      intro ws hmem hnf
      by_cases hx : env.failing x n
      · simp only [failedOf, hx, if_true] at hnf
        rcases List.mem_cons.mp hmem with rfl | hmem'
        · exact absurd (List.mem_cons_self _ _) hnf
        · simpa [deliveredOf, hx] using
            ih hmem' (fun hc => hnf (List.mem_cons_of_mem _ hc))
      · simp only [Bool.not_eq_true] at hx
        simp only [failedOf, hx, if_false] at hnf
        rcases List.mem_cons.mp hmem with rfl | hmem'
        · simp [deliveredOf, hx]
        · simpa [deliveredOf, hx] using Or.inr (ih hmem' hnf)

theorem unknown_type_none_msg :
    "Unknown message type: " ++ pyStr none = "Unknown message type: None" := by
  decide

theorem handle_send_message_always_fails (env : Env) (w : World) (d : Envelope)
    (hc : truthyStr d.conversation_id = true) (hm : truthyStr d.message = true)
    (hf : env.failing env.selfWs w.attempts.length = false) :
    handle_send_message env d w =
      ({ w with
          outbox := w.outbox ++ [(env.selfWs, WireEvent.errorEv "Failed to send message")],
          attempts := w.attempts ++ [(env.selfWs, WireEvent.errorEv "Failed to send message")] },
       Except.ok ()) := by
  rw [handle_send_message]
  simp only [hc, hm, Bool.not_true, Bool.or_self, Bool.false_eq_true, if_false]
  by_cases hu : env.uuidValid (pyStr d.conversation_id)
  · by_cases hlen : (pyStr d.message).length = 0 ∨ (pyStr d.message).length > 10000
    · simp [mTry, mBind, mLift, parseUUID, hu, mkMessageCreate, hlen, mGet,
            call_add_message_with_conversation_id_kwarg, send_error, send_text, hf]
    · simp [mTry, mBind, mLift, parseUUID, hu, mkMessageCreate, hlen, mGet,
            call_add_message_with_conversation_id_kwarg, send_error, send_text, hf]
  · simp only [Bool.not_eq_true] at hu
    simp [mTry, mBind, mLift, parseUUID, hu, send_error, send_text, hf]

/-! ## Claim theorems -/

/-- C1: the claim says a valid `send_message` without `agentId` persists one
user Message and broadcasts one `new_message`.  The code instead always
raises `TypeError` — `_handle_send_message` passes a `conversation_id`
keyword that `ConversationService.add_message` does not accept — so the
handler answers a single `error` event `Failed to send message`, persists
nothing and broadcasts nothing: the database, the registries and the
send-call trace are all left untouched. -/
theorem C1_send_message_no_agent_diverges (env : Env) (w : World) (d : Envelope)
    (ht : d.type = some "send_message")
    (hc : truthyStr d.conversation_id = true)
    (hm : truthyStr d.message = true)
    (_ha : d.agent_id = none)
    (hf : env.failing env.selfWs w.attempts.length = false) :
    handle_message env d w =
      ({ w with
          outbox := w.outbox ++ [(env.selfWs, WireEvent.errorEv "Failed to send message")],
          attempts := w.attempts ++ [(env.selfWs, WireEvent.errorEv "Failed to send message")] },
       Except.ok ()) := by
  have hd1 : dispatch_message env d = handle_send_message env d := by
    rw [dispatch_message, ht]
    rfl
  rw [handle_message, hd1]
  simp only [mTry]
  rw [handle_send_message_always_fails env w d hc hm hf]

/-- C1 witness: the divergence theorem evaluated at a concrete valid
`send_message` event in a healthy session. -/
theorem C1_witness :
    handle_message envNoFail envelopeSend emptyWorld =
      ({ emptyWorld with
          outbox := [(0, WireEvent.errorEv "Failed to send message")],
          attempts := [(0, WireEvent.errorEv "Failed to send message")] },
       Except.ok ()) :=
  C1_send_message_no_agent_diverges envNoFail emptyWorld envelopeSend
    (by decide) (by decide) (by decide) (by decide) (by decide)

/-- C2: the claim says a valid `send_message` with `agentId`, against a
gateway yielding `"Hel"` then `"lo"`, persists the user message, broadcasts
`new_message`, streams two `message_chunk` events, persists the assistant
message `"Hello"` and broadcasts `message_complete`.  The code never reaches
any of this: the first `add_message(conversation_id=...)` call raises
`TypeError`, so the handler emits exactly one `error` event and nothing is
persisted, streamed or broadcast. -/
theorem C2_send_message_with_agent_diverges (env : Env) (w : World) (d : Envelope)
    (aid : String)
    (ht : d.type = some "send_message")
    (hc : truthyStr d.conversation_id = true)
    (hm : truthyStr d.message = true)
    (_ha : d.agent_id = some aid)
    (_hat : truthyStr d.agent_id = true)
    (_hstream : env.stream = (["Hel", "lo"], StreamEnd.complete))
    (hf : env.failing env.selfWs w.attempts.length = false) :
    handle_message env d w =
      ({ w with
          outbox := w.outbox ++ [(env.selfWs, WireEvent.errorEv "Failed to send message")],
          attempts := w.attempts ++ [(env.selfWs, WireEvent.errorEv "Failed to send message")] },
       Except.ok ()) := by
  have hd1 : dispatch_message env d = handle_send_message env d := by
    rw [dispatch_message, ht]
    rfl
  rw [handle_message, hd1]
  simp only [mTry]
  rw [handle_send_message_always_fails env w d hc hm hf]

/-- C2 witness: the divergence theorem evaluated at a concrete
`send_message` with an agent and the claim's two-chunk gateway. -/
theorem C2_witness :
    handle_message envHello envelopeSendAgent emptyWorld =
      ({ emptyWorld with
          outbox := [(0, WireEvent.errorEv "Failed to send message")],
          attempts := [(0, WireEvent.errorEv "Failed to send message")] },
       Except.ok ()) :=
  C2_send_message_with_agent_diverges envHello emptyWorld envelopeSendAgent "a1"
    (by decide) (by decide) (by decide) (by decide) (by decide) (by decide) (by decide)

/-- C9: a syntactically valid envelope without a `type` field is routed to
the unknown-type branch, not the malformed-JSON branch: the sender gets
exactly one `error` event reading `Unknown message type: None`, the
database, the registries and the send-call trace are untouched, and the read
loop goes on processing the remaining events. -/
theorem C9_missing_type_is_unknown_type (env : Env) (w : World) (d : Envelope)
    (rest : List Inbound)
    (ht : d.type = none)
    (hf : env.failing env.selfWs w.attempts.length = false) :
    handle_message env d w =
      ({ w with
          outbox := w.outbox ++ [(env.selfWs, WireEvent.errorEv "Unknown message type: None")],
          attempts := w.attempts ++ [(env.selfWs, WireEvent.errorEv "Unknown message type: None")] },
       Except.ok ()) ∧
    chat_loop env (Inbound.text d :: rest) w =
      chat_loop env rest
        { w with
          outbox := w.outbox ++ [(env.selfWs, WireEvent.errorEv "Unknown message type: None")],
          attempts := w.attempts ++ [(env.selfWs, WireEvent.errorEv "Unknown message type: None")] } := by
  have hh : handle_message env d w =
      ({ w with
          outbox := w.outbox ++ [(env.selfWs, WireEvent.errorEv "Unknown message type: None")],
          attempts := w.attempts ++ [(env.selfWs, WireEvent.errorEv "Unknown message type: None")] },
       Except.ok ()) := by
    rw [handle_message, dispatch_message, ht]
    simp [mTry, send_error, send_text, hf, unknown_type_none_msg]
  refine ⟨hh, ?_⟩
  rw [chat_loop]
  simp only [mBind, mTry, hh]

/-- C9 witness: the theorem evaluated on a concrete typeless envelope with
one further inbound event. -/
theorem C9_witness :
    handle_message envNoFail envelopeNoType emptyWorld =
      ({ emptyWorld with
          outbox := [(0, WireEvent.errorEv "Unknown message type: None")],
          attempts := [(0, WireEvent.errorEv "Unknown message type: None")] },
       Except.ok ()) :=
  (C9_missing_type_is_unknown_type envNoFail emptyWorld envelopeNoType
    [Inbound.disconnect] (by decide) (by decide)).1

/-- C7: when handling a recognized event raises an exception that escapes the
per-event logic, `handle_message` catches it, sends exactly one generic
`Internal server error` event to the session's own socket — the partial
effects `w₁` of the failed handler stay, exactly one error delivery is
appended — and the read loop continues with the remaining inbound events
from that state: the session is not terminated. -/
theorem C7_router_catches_and_continues (env : Env) (d : Envelope) (w w₁ : World)
    (ex : PyExn) (rest : List Inbound)
    (_hrec : recognizedType d.type)
    (hdisp : dispatch_message env d w = (w₁, Except.error ex))
    (hf : env.failing env.selfWs w₁.attempts.length = false) :
    handle_message env d w =
      ({ w₁ with
          outbox := w₁.outbox ++ [(env.selfWs, WireEvent.errorEv "Internal server error")],
          attempts := w₁.attempts ++ [(env.selfWs, WireEvent.errorEv "Internal server error")] },
       Except.ok ()) ∧
    chat_loop env (Inbound.text d :: rest) w =
      chat_loop env rest
        { w₁ with
          outbox := w₁.outbox ++ [(env.selfWs, WireEvent.errorEv "Internal server error")],
          attempts := w₁.attempts ++ [(env.selfWs, WireEvent.errorEv "Internal server error")] } := by
  have hh : handle_message env d w =
      ({ w₁ with
          outbox := w₁.outbox ++ [(env.selfWs, WireEvent.errorEv "Internal server error")],
          attempts := w₁.attempts ++ [(env.selfWs, WireEvent.errorEv "Internal server error")] },
       Except.ok ()) := by
    rw [handle_message, mTry, hdisp]
    simp [send_error, send_text, hf]
  refine ⟨hh, ?_⟩
  rw [chat_loop]
  simp only [mBind, mTry, hh]

/-- C7 witness: a `join_conversation` whose confirmation send raises (the
first transport write of the run fails); the router catches it, reports one
error on the now-healthy socket, and the loop carries on. -/
theorem C7_witness :
    handle_message envFirstFails envelopeJoin emptyWorld =
      ({ manager := { active_connections := [],
                      conversation_participants := [("c", ["u"])] },
         db := emptyDB,
         outbox := [(0, WireEvent.errorEv "Internal server error")],
         attempts := [(0, WireEvent.joined_conversation "c"),
                      (0, WireEvent.errorEv "Internal server error")],
         sendCalls := [] },
       Except.ok ()) :=
  (C7_router_catches_and_continues envFirstFails envelopeJoin emptyWorld
    { manager := { active_connections := [],
                   conversation_participants := [("c", ["u"])] },
      db := emptyDB,
      outbox := [],
      attempts := [(0, WireEvent.joined_conversation "c")],
      sendCalls := [] }
    PyExn.sendFailed [Inbound.disconnect]
    (Or.inr (Or.inl rfl)) (by decide) (by decide)).1

/-- C3 counterexample: a `sendToUser` call in which the user's only
connection fails to send prunes the connection (lines 74–76 of
`websocket.py`) but, unlike `disconnect`, never deletes the emptied entry:
the registry is left with the dangling entry `("u", ∅)`, so the claimed
after-every-operation no-empty-entry invariant is false. -/
theorem C3_counterexample :
    (send_personal_message envAllFail (WireEvent.errorEv "x") "u" worldOneConn).1.manager.active_connections
      = [("u", [])] ∧
    ¬ NoEmptyConnEntries
      (send_personal_message envAllFail (WireEvent.errorEv "x") "u" worldOneConn).1.manager := by
  constructor
  · decide
  · intro h
    exact h ("u", []) (by decide) rfl

/-- C3 amended: `register` and `unregister` preserve the no-empty-entry
invariant, and a `sendToUser` call always succeeds, prunes exactly the
connections whose send failed, and still delivers to every connection that
remains — but a `sendToUser` in which all of the user's connections fail
leaves that user's entry present with an empty set (refuted above), so the
no-empty-entry invariant holds after register/unregister only, not after
every `sendToUser`. -/
theorem C3_amended_registry_cleanup :
    (∀ (m : ConnectionManager) (ws : WS) (uid : UserId),
        NoEmptyConnEntries m → NoEmptyConnEntries (m.connect ws uid)) ∧
    (∀ (m : ConnectionManager) (ws : WS) (uid : UserId),
        NoEmptyConnEntries m → NoEmptyConnEntries (m.disconnect ws uid)) ∧
    (∀ (env : Env) (ev : WireEvent) (uid : UserId) (w : World),
        (send_personal_message env ev uid w).2 = Except.ok () ∧
        (∀ ws, ws ∈ lookupSet uid (send_personal_message env ev uid w).1.manager ↔
          ws ∈ lookupSet uid w.manager ∧
            ws ∉ failedOf env w.attempts.length (lookupSet uid w.manager)) ∧
        (∀ ws, ws ∈ lookupSet uid (send_personal_message env ev uid w).1.manager →
          (ws, ev) ∈ (send_personal_message env ev uid w).1.outbox)) := by
  refine ⟨fun m ws uid h => connect_noEmpty h,
          fun m ws uid h => disconnect_noEmpty h, ?_⟩
  intro env ev uid w
  cases hd : dictLookup uid w.manager.active_connections with
  | none =>
      rw [send_personal_message_none hd]
      refine ⟨rfl, ?_, ?_⟩
      · intro ws
        simp [lookupSet, hd]
      · intro ws hws
        simp [lookupSet, hd] at hws
  | some s =>
      rw [send_personal_message_some hd]
      have hset : lookupSet uid
          { w with
            manager := { w.manager with
              active_connections := dictSet uid
                ((failedOf env w.attempts.length s).foldl
                  (fun acc ws => setDiscard ws acc) s)
                w.manager.active_connections },
            outbox := w.outbox ++ deliveredOf env ev w.attempts.length s,
            attempts := w.attempts ++ s.map (fun ws => (ws, ev)),
            sendCalls := w.sendCalls ++ [uid] }.manager
          = (failedOf env w.attempts.length s).foldl
              (fun acc ws => setDiscard ws acc) s := by
        simp [lookupSet, dictLookup_dictSet_self]
      refine ⟨rfl, ?_, ?_⟩
      · intro ws
        rw [hset, mem_foldl_setDiscard]
        simp [lookupSet, hd]
      · intro ws hws
        rw [hset, mem_foldl_setDiscard] at hws
        have hmem : (ws, ev) ∈ deliveredOf env ev w.attempts.length s :=
          mem_deliveredOf_of_kept hws.1 hws.2
        simp [hmem]

/-- C3 witness: the amended theorem applied to concrete inputs — adding a
connection to the empty registry keeps the invariant, and in a healthy
session the surviving connection of `"u"` actually receives the payload. -/
theorem C3_amended_witness :
    NoEmptyConnEntries (emptyManager.connect 3 "u") ∧
    (1, WireEvent.errorEv "x") ∈
      (send_personal_message envNoFail (WireEvent.errorEv "x") "u" worldOneConn).1.outbox :=
  ⟨C3_amended_registry_cleanup.1 emptyManager 3 "u"
      (fun p hp => absurd hp (List.not_mem_nil p)),
   (C3_amended_registry_cleanup.2.2 envNoFail (WireEvent.errorEv "x") "u" worldOneConn).2.2
      1 (by decide)⟩

/-- C4: starting from an empty registry, after any sequence of
`register`/`unregister` operations the registry holds exactly the pairs
registered and not yet unregistered, grouped by user, with no empty entry;
in particular unregistering a user's sole connection removes the user's
entry entirely, and unregistering one of several connections removes exactly
that one. -/
theorem C4_registry_exact_sets (ops : List RegOp) :
    (∀ uid ws, ws ∈ lookupSet uid (runOps emptyManager ops) ↔
      (uid, ws) ∈ registeredAfter [] ops) ∧
    NoEmptyConnEntries (runOps emptyManager ops) ∧
    (∀ uid ws, lookupSet uid (runOps emptyManager ops) = [ws] →
      dictLookup uid
        (runOps emptyManager (ops ++ [RegOp.unregister uid ws])).active_connections
        = none) ∧
    (∀ uid ws ws', ws' ≠ ws →
      (ws' ∈ lookupSet uid (runOps emptyManager (ops ++ [RegOp.unregister uid ws])) ↔
       ws' ∈ lookupSet uid (runOps emptyManager ops))) := by
  have hinv := runOps_regInv ops regInv_empty
  refine ⟨hinv.1, hinv.2, ?_, ?_⟩
  · intro uid ws h
    rw [runOps_append]
    exact disconnect_sole_entry_gone h
  · intro uid ws ws' hne
    rw [runOps_append]
    show ws' ∈ lookupSet uid ((runOps emptyManager ops).disconnect ws uid) ↔ _
    rw [lookupSet_disconnect_self, mem_setDiscard]
    simp [hne]

/-- C4 witness: registering `5` for `"u"` and then unregistering it (the sole
connection) leaves no entry for `"u"` at all. -/
theorem C4_witness :
    dictLookup "u"
      (runOps emptyManager
        ([RegOp.register "u" 5] ++ [RegOp.unregister "u" 5])).active_connections
      = none :=
  (C4_registry_exact_sets [RegOp.register "u" 5]).2.2.1 "u" 5 (by decide)

/-- C6 counterexample: `broadcast_to_conversation` guards the exclusion with
`if exclude_user and user_id == exclude_user` — Python truthiness — so the
empty-string user is never excluded: with `excludeUserId = ""` and `""` a
participant holding connection `5`, a `sendToUser` call is issued for the
excluded user and the payload is delivered to its connection, refuting the
universally quantified claim. -/
theorem C6_counterexample :
    "" ∈ lookupParticipants "c" worldEmptyStringUser.manager ∧
    "" ∈ (broadcast_to_conversation envNoFail (WireEvent.typingEv "z" true "c")
            "c" (some "") worldEmptyStringUser).1.sendCalls ∧
    (broadcast_to_conversation envNoFail (WireEvent.typingEv "z" true "c")
       "c" (some "") worldEmptyStringUser).1.outbox
      = [(5, WireEvent.typingEv "z" true "c")] := by
  refine ⟨by decide, by decide, by decide⟩

/-- C6 amended: for every excluded user `U` that is a non-empty string,
`broadcast(conversationId, payload, excludeUserId = U)` raises no error,
never issues a `sendToUser` delivery for `U` even when `U` is a participant,
issues exactly one `sendToUser` for every other current participant, and is
a state-preserving no-op when the conversation has no participant entry.
(The original claim, quantified over all `U`, fails only at `U = ""`, where
Python truthiness disables the exclusion.) -/
theorem C6_amended_broadcast_exclusion (env : Env) (ev : WireEvent) (cid : ConvId)
    (U : UserId) (w : World)
    (hU : U ≠ "")
    (hnd : (lookupParticipants cid w.manager).Nodup) :
    (broadcast_to_conversation env ev cid (some U) w).2 = Except.ok () ∧
    U ∉ ((broadcast_to_conversation env ev cid (some U) w).1.sendCalls.drop
          w.sendCalls.length) ∧
    (∀ u ∈ lookupParticipants cid w.manager, u ≠ U →
      (((broadcast_to_conversation env ev cid (some U) w).1.sendCalls.drop
          w.sendCalls.length).count u) = 1) ∧
    (dictLookup cid w.manager.conversation_participants = none →
      broadcast_to_conversation env ev cid (some U) w = (w, Except.ok ())) := by
  obtain ⟨ac, out, att, heq, _hout⟩ := broadcast_spec env ev cid (some U) w
  have hcalls : (broadcast_to_conversation env ev cid (some U) w).1.sendCalls.drop
      w.sendCalls.length
      = (lookupParticipants cid w.manager).filter (fun u => !excludeMatches (some U) u) := by
    rw [heq]
    simp [List.drop_left]
  refine ⟨by simp [heq], ?_, ?_, fun hd => broadcast_none_noop hd⟩
  · rw [hcalls]
    intro hmem
    have := List.of_mem_filter hmem
    simp [excludeMatches, hU] at this
  · intro u hu hne
    rw [hcalls]
    have hfu : (fun u => !excludeMatches (some U) u) u = true := by
      simp [excludeMatches, hne]
    exact List.count_eq_one_of_mem (hnd.filter _) (List.mem_filter.mpr ⟨hu, hfu⟩)

/-- C6 witness: the amended theorem at a concrete conversation with
participants `"u"` and `"v"`, excluding `"u"`: no call for `"u"`, exactly
one for `"v"`. -/
theorem C6_witness :
    "u" ∉ ((broadcast_to_conversation envNoFail (WireEvent.errorEv "p") "c"
             (some "u") worldChat).1.sendCalls.drop worldChat.sendCalls.length) ∧
    (((broadcast_to_conversation envNoFail (WireEvent.errorEv "p") "c"
         (some "u") worldChat).1.sendCalls.drop worldChat.sendCalls.length).count "v") = 1 :=
  ⟨(C6_amended_broadcast_exclusion envNoFail (WireEvent.errorEv "p") "c" "u" worldChat
      (by decide) (by decide)).2.1,
   (C6_amended_broadcast_exclusion envNoFail (WireEvent.errorEv "p") "c" "u" worldChat
      (by decide) (by decide)).2.2.1 "v" (by decide) (by decide)⟩

/-- C8: within one `sendToUser` call the connections given a send attempt are
exactly the user's set as recorded at the start of the call, one attempt
each in snapshot order; every delivery carries the call's payload; and each
connection receives the payload exactly once precisely when it survives the
call's pruning — failed sends neither skip nor duplicate delivery to the
remaining connections. -/
theorem C8_snapshot_send (env : Env) (ev : WireEvent) (uid : UserId) (w : World)
    (hnd : (lookupSet uid w.manager).Nodup) :
    (send_personal_message env ev uid w).2 = Except.ok () ∧
    ((send_personal_message env ev uid w).1.attempts.drop w.attempts.length).map Prod.fst
      = lookupSet uid w.manager ∧
    (∀ p ∈ (send_personal_message env ev uid w).1.outbox.drop w.outbox.length,
      p.2 = ev) ∧
    (∀ ws, (((send_personal_message env ev uid w).1.outbox.drop w.outbox.length).count
        (ws, ev))
      = if ws ∈ lookupSet uid (send_personal_message env ev uid w).1.manager
        then 1 else 0) := by
  cases hd : dictLookup uid w.manager.active_connections with
  | none =>
      rw [send_personal_message_none hd]
      refine ⟨rfl, by simp [lookupSet, hd], by simp, ?_⟩
      intro ws
      simp [lookupSet, hd]
  | some s =>
      have hs : lookupSet uid w.manager = s := by simp [lookupSet, hd]
      rw [send_personal_message_some hd]
      have hnds : s.Nodup := hs ▸ hnd
      have hsetAfter : ∀ ws : WS,
          (ws ∈ (failedOf env w.attempts.length s).foldl
              (fun acc ws => setDiscard ws acc) s) ↔
            ws ∈ keptOf env w.attempts.length s := by
        intro ws
        rw [mem_foldl_setDiscard, ← mem_keptOf_iff hnds]
      refine ⟨rfl, ?_, by
        intro p hp
        simp only [List.drop_left] at hp
        exact (deliveredOf_mem (by simpa using hp)).1, ?_⟩
      · simp only [List.drop_left, List.map_map]
        rw [hs]
        exact List.map_id s
      intro ws
      have hlook : lookupSet uid
          { w with
            manager := { w.manager with
              active_connections := dictSet uid
                ((failedOf env w.attempts.length s).foldl
                  (fun acc ws => setDiscard ws acc) s)
                w.manager.active_connections },
            outbox := w.outbox ++ deliveredOf env ev w.attempts.length s,
            attempts := w.attempts ++ s.map (fun ws => (ws, ev)),
            sendCalls := w.sendCalls ++ [uid] }.manager
          = (failedOf env w.attempts.length s).foldl
              (fun acc ws => setDiscard ws acc) s := by
        simp [lookupSet, dictLookup_dictSet_self]
      rw [hlook]
      simp only [List.drop_left]
      rw [deliveredOf_eq_map_keptOf, count_pair_map]
      by_cases hmem : ws ∈ keptOf env w.attempts.length s
      · rw [if_pos ((hsetAfter ws).mpr hmem)]
        exact List.count_eq_one_of_mem
          ((keptOf_sublist env w.attempts.length s).nodup hnds) hmem
      · rw [if_neg (fun hc => hmem ((hsetAfter ws).mp hc))]
        exact List.count_eq_zero.mpr hmem

/-- C8 witness: the theorem applied to a user with the single live connection
`1` in a healthy session: one attempt, one delivery. -/
theorem C8_witness :
    ((send_personal_message envNoFail (WireEvent.errorEv "x") "u" worldOneConn).1.attempts.drop
        worldOneConn.attempts.length).map Prod.fst
      = lookupSet "u" worldOneConn.manager :=
  (C8_snapshot_send envNoFail (WireEvent.errorEv "x") "u" worldOneConn (by decide)).2.1

/-- C10: a `typing` event with a non-empty `conversation_id` and no
`is_typing` field is not rejected: `data.get('is_typing', False)` defaults to
`False`, the handler succeeds, persists nothing, delivers only
`typing`-with-`false` payloads, issues no `sendToUser` call for the sender,
and issues exactly one for every other current participant — so the sender
gets neither an error nor a confirmation. -/
theorem C10_typing_defaults_false (env : Env) (w : World) (d : Envelope) (cid : String)
    (ht : d.type = some "typing")
    (hcid : d.conversation_id = some cid)
    (hcne : cid ≠ "")
    (hit : d.is_typing = none)
    (hself : env.selfUser ≠ "")
    (hnd : (lookupParticipants cid w.manager).Nodup) :
    (handle_message env d w).2 = Except.ok () ∧
    (handle_message env d w).1.db = w.db ∧
    (∀ p ∈ (handle_message env d w).1.outbox.drop w.outbox.length,
      p.2 = WireEvent.typingEv env.selfUser false cid) ∧
    env.selfUser ∉ (handle_message env d w).1.sendCalls.drop w.sendCalls.length ∧
    (∀ u ∈ lookupParticipants cid w.manager, u ≠ env.selfUser →
      (((handle_message env d w).1.sendCalls.drop w.sendCalls.length).count u) = 1) := by
  have hd1 : dispatch_message env d = handle_typing env d := by
    rw [dispatch_message, ht]
    rfl
  have ht2 : handle_typing env d =
      broadcast_to_conversation env (WireEvent.typingEv env.selfUser false cid)
        cid (some env.selfUser) := by
    rw [handle_typing, hit, hcid]
    simp [truthyStr, hcne, pyStr]
  obtain ⟨ac, out, att, heq, hout⟩ :=
    broadcast_spec env (WireEvent.typingEv env.selfUser false cid) cid
      (some env.selfUser) w
  have hred : handle_message env d w =
      broadcast_to_conversation env (WireEvent.typingEv env.selfUser false cid)
        cid (some env.selfUser) w := by
    rw [handle_message, hd1, ht2]
    simp only [mTry]
    rw [heq]
  rw [hred, heq]
  refine ⟨rfl, rfl, ?_, ?_, ?_⟩
  · intro p hp
    simp only [List.drop_left] at hp
    exact hout p (by simpa using hp)
  · simp only [List.drop_left]
    intro hmem
    have := List.of_mem_filter hmem
    simp [excludeMatches, hself] at this
  · intro u hu hne
    simp only [List.drop_left]
    have hfu : (fun u => !excludeMatches (some env.selfUser) u) u = true := by
      simp [excludeMatches, hne]
    exact List.count_eq_one_of_mem (hnd.filter _) (List.mem_filter.mpr ⟨hu, hfu⟩)

/-- C10 witness: the theorem at a concrete typing event without `is_typing`;
the sender `"u"` gets no call, the other participant `"v"` exactly one. -/
theorem C10_witness :
    (handle_message envNoFail envelopeTyping worldChat).2 = Except.ok () ∧
    (((handle_message envNoFail envelopeTyping worldChat).1.sendCalls.drop
        worldChat.sendCalls.length).count "v") = 1 :=
  ⟨(C10_typing_defaults_false envNoFail worldChat envelopeTyping "c"
      (by decide) (by decide) (by decide) (by decide) (by decide) (by decide)).1,
   (C10_typing_defaults_false envNoFail worldChat envelopeTyping "c"
      (by decide) (by decide) (by decide) (by decide) (by decide) (by decide)).2.2.2.2
      "v" (by decide) (by decide)⟩

/-- C5: when the gateway stream raises after yielding its chunks (the
resolution of the agent and of the bounded history is modelled from the
spec, since `get_agent_for_conversation` and `get_conversation_messages` are
absent from the repository), `_generate_ai_response` catches the exception:
it returns normally, the database is untouched — no assistant message is
persisted and the already-persisted user message is not rolled back — the
outbound trace keeps every already-broadcast `message_chunk` delivery
unretracted, followed by exactly one `error` event to the session's socket,
and no other error event is emitted. -/
theorem C5_gateway_midstream_failure (env : Env) (w : World) (cid aid msg : String)
    (cs : List String)
    (hstream : env.stream = (cs, StreamEnd.raiseMidStream))
    (hcu : env.uuidValid cid = true)
    (hau : env.uuidValid aid = true)
    (hag : aid ∈ w.db.agents)
    (hlen0 : msg.length ≠ 0)
    (hlen1 : msg.length ≤ 10000)
    (hfail : ∀ n, env.failing env.selfWs n = false) :
    (generate_ai_response env cid aid msg w).2 = Except.ok () ∧
    (generate_ai_response env cid aid msg w).1.db = w.db ∧
    ∃ delta,
      (generate_ai_response env cid aid msg w).1.outbox =
        w.outbox ++ delta ++
          [(env.selfWs, WireEvent.errorEv "Failed to generate AI response")] ∧
      (∀ p ∈ delta, ∃ c ∈ cs, p.2 = WireEvent.message_chunk c cid) ∧
      ((delta ++ [(env.selfWs, WireEvent.errorEv "Failed to generate AI response")]).countP
        (fun p => isErrorPayload p.2)) = 1 := by
  have hlen2 : ¬ msg.length > 10000 := by omega
  obtain ⟨ac, out, att, calls, r, heq, hout⟩ := streamLoop_spec env cid cs "" w
  have hred : generate_ai_response env cid aid msg w =
      ({ manager := { active_connections := ac,
                      conversation_participants := w.manager.conversation_participants },
         db := w.db,
         outbox := (w.outbox ++ out) ++
           [(env.selfWs, WireEvent.errorEv "Failed to generate AI response")],
         attempts := (w.attempts ++ att) ++
           [(env.selfWs, WireEvent.errorEv "Failed to generate AI response")],
         sendCalls := w.sendCalls ++ calls }, Except.ok ()) := by
    rw [generate_ai_response]
    simp only [mTry, mBind, mLift, mGet, mRaise, parseUUID, hcu, hau, if_true,
      get_agent_for_conversation, hag, if_pos, mkChatRequest, hlen0, hlen2,
      or_self, if_false, hstream]
    rw [heq]
    simp [send_error, send_text, hfail]
  rw [hred]
  refine ⟨rfl, rfl, out, by simp, hout, ?_⟩
  rw [List.countP_append]
  have h0 : out.countP (fun p => isErrorPayload p.2) = 0 := by
    rw [List.countP_eq_zero]
    intro p hp
    obtain ⟨c, _, hpc⟩ := hout p hp
    simp [hpc, isErrorPayload]
  rw [h0]
  simp [isErrorPayload]

/-- C5 witness: the theorem at the claim's concrete scenario — gateway yields
`"Hel"` then raises — in a session whose own socket is healthy. -/
theorem C5_witness :
    (generate_ai_response envHelRaise "c" "a1" "hi" worldChat).2 = Except.ok () ∧
    (generate_ai_response envHelRaise "c" "a1" "hi" worldChat).1.db = worldChat.db :=
  ⟨(C5_gateway_midstream_failure envHelRaise worldChat "c" "a1" "hi" ["Hel"]
      (by decide) (by decide) (by decide) (by decide) (by decide) (by decide)
      (fun _ => rfl)).1,
   (C5_gateway_midstream_failure envHelRaise worldChat "c" "a1" "hi" ["Hel"]
      (by decide) (by decide) (by decide) (by decide) (by decide) (by decide)
      (fun _ => rfl)).2.1⟩

end JoulaA
